import Mathlib

/-!
Verification development for the media-backed record lifecycle of the
PREMSAITEJA/StartUP repository.

The embedded code is the stricter, rethrow-and-compensate version of the
Appwrite API module (the first of the two versions present in the source),
the pure like-toggle of the PostStats component, and the tag-parsing
expression shared by createPost and updatePost.

Modelling conventions:
  * JavaScript strings that only flow opaquely (ids, captions, URLs) are
    modelled as Lean String; the tag string, which is inspected character
    by character, is modelled as List Char.
  * The two remote stores (Appwrite storage and databases) are external
    services, not code of this repository.  Their state is modelled as an
    explicit World value (set of blob ids plus document collections) and
    each remote call's outcome is decided by an Env oracle.  The post
    document create carries both failure channels of the service: a
    rejected promise (UnavailableError, which the awaiting caller observes
    as a thrown error) and a falsy resolution (the channel the source's
    if-check observes; the `Option` result is none and the store is
    unchanged).  The save and follow creates and the document updates are
    exercised by the claims only on the falsy channel the source branches
    on, and carry that channel plus success.
  * Blob deletion is modelled from the spec: removing a present id; absence
    of the id is a no-op success.  A per-id flag additionally allows a
    transient storage-side delete failure, which the source observes as a
    thrown error.
  * Async control flow is sequentialized; a thrown error is an
    `Except.error` that each embedded function propagates exactly where the
    source rethrows it and swallows exactly where the source catches it.
-/

/-- A post document as persisted by createPost / updatePost. -/
structure PostDoc where
  id : String
  creator : String
  caption : String
  imageUrl : String
  imageId : String
  location : String
  tags : List (List Char)
  likes : List String
deriving DecidableEq, Repr

/-- A save edge document: user plus post id. -/
structure SaveDoc where
  id : String
  userId : String
  postId : String
deriving DecidableEq, Repr

/-- A follow edge document: follower plus following id. -/
structure FollowDoc where
  id : String
  followerId : String
  followingId : String
deriving DecidableEq, Repr

/-- The combined durable state of the two remote stores: the blob ids held
by the storage bucket and the three document collections. -/
structure World where
  assets : List String
  posts : List PostDoc
  saves : List SaveDoc
  follows : List FollowDoc
deriving DecidableEq, Repr

/-- Environment oracle fixing the outcome of each remote call made during
one embedded operation: the id minted by storage.createFile (none meaning
the upload fails), the preview URL per file id (none meaning
storage.getFilePreview yields nothing), the id minted by ID.unique for a
document create, and success flags for the document write calls and for
storage.deleteFile per file id.  For the post document create, which has
two distinct failure channels in the source, createDocThrows selects a
rejected promise (UnavailableError) while createDocOk = false selects a
falsy resolution. -/
structure Env where
  newFileId : Option String
  previewUrl : String → Option String
  newDocId : String
  createDocOk : Bool
  createDocThrows : Bool
  updateDocOk : Bool
  deleteDocOk : Bool
  deleteFileOk : String → Bool

/-- Input of createPost (INewPost): the file payload itself is opaque and
always present, so only the document fields are carried. -/
structure INewPost where
  userId : String
  caption : String
  location : String
  tags : Option (List Char)
deriving Repr

/-- Input of updatePost (IUpdatePost).  `file` is the boolean
hasFileToUpdate check of the source (post.file is an array with at least
one element); optional strings are none when the caller omits them. -/
structure IUpdatePost where
  postId : String
  caption : Option String
  imageUrl : Option String
  imageId : Option String
  location : Option String
  tags : Option (List Char)
  file : Bool
deriving Repr

/-- Embedding of the JavaScript split on a comma: one recursive pass
returning the piece currently being built plus the finished pieces.
Matches the semantics of the source's split, including that an empty
input yields one empty piece. -/
def splitCommaAux : List Char → List Char × List (List Char)
  | [] => ([], [])
  | c :: cs =>
    let r := splitCommaAux cs
    if c = ',' then ([], r.1 :: r.2) else (c :: r.1, r.2)

/-- The full list of comma-separated pieces of a character list. -/
def splitComma (s : List Char) : List (List Char) :=
  (splitCommaAux s).1 :: (splitCommaAux s).2

/-- Embedding of the tag-parsing expression of createPost and updatePost:
the optional chain yields the fallback empty list only when the tag string
is absent; otherwise every space character is removed (the replace with a
global space pattern) and the result is split on commas. -/
def parseTags : Option (List Char) → List (List Char)
  | none => []
  | some s => splitComma (s.filter (fun c => c != ' '))

/-- Embedding of uploadFile: storage.createFile mints a fresh blob id on
success and adds the blob to the bucket; on failure the wrapper rethrows. -/
def uploadFile (env : Env) (w : World) : Except String String × World :=
  match env.newFileId with
  | some fid => (.ok fid, { w with assets := fid :: w.assets })
  | none => (.error "storage createFile failed", w)

/-- Embedding of getFilePreview: the source passes the fixed transform
2000 x 2000, crop top, quality 100 and returns null when the service
yields nothing or throws; the oracle already folds the transform in. -/
def getFilePreview (env : Env) (fileId : String) : Option String :=
  env.previewUrl fileId

/-- Embedding of deleteFile: forwards to storage.deleteFile and maps
success to the ok status object; a storage-side failure is rethrown.  The
storage-side delete itself is modelled from the spec (the backing blob
service is not part of the sources): it removes the id when present and
treats absence as success. -/
def deleteFile (env : Env) (w : World) (fileId : String) :
    Except String String × World :=
  if env.deleteFileOk fileId then
    (.ok "ok", { w with assets := w.assets.erase fileId })
  else
    (.error "storage deleteFile failed", w)

/-- databases.createDocument on the post collection, with both failure
channels of the service: a rejected promise (UnavailableError, which the
awaiting caller observes as a thrown error), a falsy resolution (the
channel the if-check of the source observes), and the success channel on
which the document is appended.  Either failure leaves the collection
unchanged. -/
def dbCreatePost (env : Env) (w : World) (doc : PostDoc) :
    Except String (Option PostDoc) × World :=
  if env.createDocThrows then (.error "UnavailableError", w)
  else if env.createDocOk then (.ok (some doc), { w with posts := w.posts ++ [doc] })
  else (.ok none, w)

/-- Embedding of createPost (stricter version): upload the payload,
compute the preview URL deleting the upload on a null preview, parse the
tags and persist the document.  A falsy persistence result is compensated
by deleting the upload before throwing; a thrown persistence error jumps
to the surrounding catch, which only logs and rethrows, so no
compensation runs on that channel.  Every rethrow of the source is an
error result. -/
def createPost (env : Env) (w : World) (post : INewPost) :
    Except String PostDoc × World :=
  match uploadFile env w with
  | (.error e, w1) => (.error e, w1)
  | (.ok fid, w1) =>
    match getFilePreview env fid with
    | none =>
      match deleteFile env w1 fid with
      | (.ok _, w2) => (.error "Failed to get file preview URL.", w2)
      | (.error e, w2) => (.error e, w2)
    | some url =>
      match dbCreatePost env w1
          { id := env.newDocId, creator := post.userId,
            caption := post.caption, imageUrl := url, imageId := fid,
            location := post.location, tags := parseTags post.tags,
            likes := [] } with
      | (.error e, w2) => (.error e, w2)
      | (.ok (some doc), w2) => (.ok doc, w2)
      | (.ok none, w2) =>
        match deleteFile env w2 fid with
        | (.ok _, w3) => (.error "Failed to create post document.", w3)
        | (.error e, w3) => (.error e, w3)

/-- databases.updateDocument on the post collection with the field set
written by updatePost: the targeted document keeps its id, creator and
likes and receives the supplied caption, image data, location and tags;
the falsy-result channel (including an absent target) leaves the
collection unchanged. -/
def dbUpdatePostFields (env : Env) (w : World) (pid : String)
    (caption imageUrl imageId location : String) (tags : List (List Char)) :
    Option PostDoc × World :=
  if env.updateDocOk then
    match w.posts.find? (fun p => p.id == pid) with
    | some old =>
      let d := { old with
                 caption := caption,
                 imageUrl := imageUrl,
                 imageId := imageId,
                 location := location,
                 tags := tags }
      (some d, { w with posts := w.posts.map (fun p => if p.id == pid then d else p) })
    | none => (none, w)
  else (none, w)

/-- databases.updateDocument on the post collection with the field set
written by likePost: only the likes array of the targeted document is
replaced. -/
def dbUpdatePostLikes (env : Env) (w : World) (pid : String)
    (likes : List String) : Option PostDoc × World :=
  if env.updateDocOk then
    match w.posts.find? (fun p => p.id == pid) with
    | some old =>
      let d := { old with likes := likes }
      (some d, { w with posts := w.posts.map (fun p => if p.id == pid then d else p) })
    | none => (none, w)
  else (none, w)

/-- Shared tail of updatePost: parse the tags, persist the document with
the chosen image data and the caption and location defaults, then either
compensate (deleting a newly uploaded file when persistence yields no
document) or best-effort delete the old file, swallowing a failure of
that final cleanup exactly as the inner try block of the source does. -/
def updatePostCore (env : Env) (w : World) (post : IUpdatePost)
    (imageUrl imageId : String) (hasFile : Bool) :
    Except String PostDoc × World :=
  match dbUpdatePostFields env w post.postId
      (post.caption.getD "No caption") imageUrl imageId
      (post.location.getD "Unknown location") (parseTags post.tags) with
  | (some d, w2) =>
    if hasFile && (post.imageId.getD "" != "") && (post.imageId.getD "" != imageId) then
      (.ok d, (deleteFile env w2 (post.imageId.getD "")).2)
    else
      (.ok d, w2)
  | (none, w2) =>
    if hasFile && (imageId != "") then
      match deleteFile env w2 imageId with
      | (.ok _, w3) => (.error "Failed to update post document.", w3)
      | (.error e, w3) => (.error e, w3)
    else
      (.error "Failed to update post document.", w2)

/-- Embedding of updatePost (stricter version): without a new payload
only document fields are written, reusing the caller-supplied image data;
with a new payload the file is uploaded and previewed first, a null
preview deleting the fresh upload, and the document is then persisted
with the new image data. -/
def updatePost (env : Env) (w : World) (post : IUpdatePost) :
    Except String PostDoc × World :=
  if post.file then
    match uploadFile env w with
    | (.error e, w1) => (.error e, w1)
    | (.ok fid, w1) =>
      match getFilePreview env fid with
      | none =>
        match deleteFile env w1 fid with
        | (.ok _, w2) => (.error "Failed to generate new file preview URL.", w2)
        | (.error e, w2) => (.error e, w2)
      | some url => updatePostCore env w1 post url fid true
  else
    updatePostCore env w post (post.imageUrl.getD "") (post.imageId.getD "") false

/-- Embedding of likePost: one updateDocument call replacing the likes
array of the post with the supplied array; a falsy result is rethrown as
an error. -/
def likePost (env : Env) (w : World) (postId : String)
    (likesArray : List String) : Except String PostDoc × World :=
  match dbUpdatePostLikes env w postId likesArray with
  | (some d, w1) => (.ok d, w1)
  | (none, w1) => (.error "Failed to update post likes.", w1)

/-- Embedding of the pure like toggle of the PostStats component
(handleLikePost): membership test on the current likes list, filtering
the id out when present and appending it when absent. -/
def toggleLike (likes : List String) (userId : String) : List String :=
  if likes.contains userId then likes.filter (fun idStr => idStr != userId)
  else likes ++ [userId]

/-- The save edges matching a (user, post) pair, in collection order: the
result of the listDocuments call with the two equality queries. -/
def matchingSaves (w : World) (userId postId : String) : List SaveDoc :=
  w.saves.filter (fun s => s.userId == userId && s.postId == postId)

/-- The follow edges matching an ordered (follower, following) pair, in
collection order: the result of the listDocuments call with the two
equality queries. -/
def matchingFollows (w : World) (followerId followingId : String) :
    List FollowDoc :=
  w.follows.filter (fun f => f.followerId == followerId && f.followingId == followingId)

/-- databases.createDocument on the saves collection. -/
def dbCreateSave (env : Env) (w : World) (doc : SaveDoc) :
    Option SaveDoc × World :=
  if env.createDocOk then (some doc, { w with saves := w.saves ++ [doc] })
  else (none, w)

/-- databases.createDocument on the followers collection. -/
def dbCreateFollow (env : Env) (w : World) (doc : FollowDoc) :
    Option FollowDoc × World :=
  if env.createDocOk then (some doc, { w with follows := w.follows ++ [doc] })
  else (none, w)

/-- databases.deleteDocument on the followers collection: removes the
document with the given id; a failing call changes nothing and throws. -/
def dbDeleteFollow (env : Env) (w : World) (docId : String) :
    Except String Unit × World :=
  if env.deleteDocOk then
    (.ok (), { w with follows := w.follows.filter (fun f => f.id != docId) })
  else (.error "deleteDocument failed", w)

/-- Embedding of savePost: list the existing edges for the pair, return
the first match unchanged when one exists, otherwise create a fresh edge;
a falsy create result is rethrown as an error. -/
def savePost (env : Env) (w : World) (userId postId : String) :
    Except String SaveDoc × World :=
  match matchingSaves w userId postId with
  | e :: _ => (.ok e, w)
  | [] =>
    match dbCreateSave env w { id := env.newDocId, userId := userId, postId := postId } with
    | (some d, w1) => (.ok d, w1)
    | (none, w1) => (.error "Failed to create save document.", w1)

/-- Embedding of followUser (stricter version): the same
existence-check-then-create pattern as savePost, with no validation of
the two ids beyond the equality queries. -/
def followUser (env : Env) (w : World) (followerId followingId : String) :
    Except String FollowDoc × World :=
  match matchingFollows w followerId followingId with
  | e :: _ => (.ok e, w)
  | [] =>
    match dbCreateFollow env w
        { id := env.newDocId, followerId := followerId, followingId := followingId } with
    | (some d, w1) => (.ok d, w1)
    | (none, w1) => (.error "Failed to create follow document.", w1)

/-- Embedding of unfollowUser (stricter version): list the edges matching
the ordered pair; when the list is nonempty delete the document id of its
first element, otherwise do nothing; both paths return the ok status. -/
def unfollowUser (env : Env) (w : World) (followerId followingId : String) :
    Except String String × World :=
  match matchingFollows w followerId followingId with
  | [] => (.ok "Ok", w)
  | d :: _ =>
    match dbDeleteFollow env w d.id with
    | (.ok _, w1) => (.ok "Ok", w1)
    | (.error e, w1) => (.error e, w1)

/-- A fully successful environment used by concrete witnesses. -/
def envA : Env :=
  { newFileId := some "f1", previewUrl := fun _ => some "https://preview/f1",
    newDocId := "d1", createDocOk := true, createDocThrows := false,
    updateDocOk := true, deleteDocOk := true, deleteFileOk := fun _ => true }

/-- The empty world. -/
def wEmpty : World := { assets := [], posts := [], saves := [], follows := [] }

/-- A world holding two duplicate follow edges for the same ordered pair. -/
def wDup : World :=
  { assets := [], posts := [], saves := [],
    follows := [{ id := "e1", followerId := "a", followingId := "b" },
                { id := "e2", followerId := "a", followingId := "b" }] }

/-- A world holding one post with a caption, a location and an asset. -/
def wPost : World :=
  { assets := ["old1"],
    posts := [{ id := "p1", creator := "u1", caption := "hello",
                imageUrl := "https://preview/old1", imageId := "old1",
                location := "Paris", tags := [], likes := ["u1", "u2"] }],
    saves := [], follows := [] }

/-- An environment whose document create rejects (UnavailableError). -/
def envE : Env := { envA with createDocThrows := true }

/-- An environment whose preview computation yields nothing. -/
def envC : Env := { envA with previewUrl := fun _ => none }

/-- An environment whose storage delete fails for the old asset id. -/
def envD : Env := { envA with deleteFileOk := fun fid => fid != "old1" }

/-- A concrete createPost input. -/
def post0 : INewPost :=
  { userId := "u1", caption := "cap", location := "loc", tags := none }

/-- A concrete updatePost input carrying no new file payload. -/
def pNoFile : IUpdatePost :=
  { postId := "p1", caption := some "new cap", imageUrl := some "https://preview/old1",
    imageId := some "old1", location := some "Rome", tags := none, file := false }

/-- A concrete updatePost input carrying a new file payload. -/
def qNewFile : IUpdatePost :=
  { postId := "p1", caption := some "new cap", imageUrl := some "https://preview/old1",
    imageId := some "old1", location := some "Rome", tags := none, file := true }

/-- A concrete document-only updatePost input omitting caption and location. -/
def pDefaults : IUpdatePost :=
  { postId := "p1", caption := none, imageUrl := some "https://preview/old1",
    imageId := some "old1", location := none, tags := none, file := false }

/-- Claim C3 counterexample: the tag parsing of createPost and updatePost,
applied to the empty string, yields a one-element list holding the empty
string rather than the empty list, and a tab between letters survives the
replace because only the space character is stripped. -/
theorem tagParse_empty_input_cex :
    parseTags (some []) = [[]] ∧
    parseTags (some []) ≠ [] ∧
    parseTags (some ['a', '\t', 'b']) = [['a', '\t', 'b']] := by
  refine ⟨rfl, ?_, rfl⟩
  decide

/-- Every character of the piece currently being built, and of every
finished piece, of splitCommaAux comes from the input list. -/
theorem splitCommaAux_chars (l : List Char) :
    (∀ c, c ∈ (splitCommaAux l).1 → c ∈ l) ∧
    (∀ t, t ∈ (splitCommaAux l).2 → ∀ c, c ∈ t → c ∈ l) := by
  induction l with
  | nil =>
    constructor
    · intro c hc; simp [splitCommaAux] at hc
    · intro t ht; simp [splitCommaAux] at ht
  | cons a as ih =>
    by_cases h : a = ','
    · constructor
      · intro c hc; simp [splitCommaAux, h] at hc
      · intro t ht c hc
        simp only [splitCommaAux, h, if_pos] at ht
        simp only [List.mem_cons] at ht
        rcases ht with h1 | h2
        · subst h1; exact List.mem_cons_of_mem a (ih.1 c hc)
        · exact List.mem_cons_of_mem a (ih.2 t h2 c hc)
    · constructor
      · intro c hc
        simp only [splitCommaAux, h, if_neg, if_false] at hc
        simp only [List.mem_cons] at hc
        rcases hc with h1 | h2
        · simp [h1]
        · exact List.mem_cons_of_mem a (ih.1 c h2)
      · intro t ht c hc
        simp only [splitCommaAux, h, if_neg, if_false] at ht
        exact List.mem_cons_of_mem a (ih.2 t ht c hc)

/-- Every character of every piece of splitComma comes from the input. -/
theorem mem_splitComma_chars {l t : List Char} (ht : t ∈ splitComma l)
    {c : Char} (hc : c ∈ t) : c ∈ l := by
  simp only [splitComma, List.mem_cons] at ht
  rcases ht with h1 | h2
  · subst h1; exact (splitCommaAux_chars l).1 c hc
  · exact (splitCommaAux_chars l).2 t h2 c hc

/-- Claim C3 (amended): the tag parsing of createPost and updatePost
strips every space character (but no other whitespace) and splits on
commas, so no produced tag contains a space and the example string
"a, b ,c" yields the tags a, b, c; an absent tag string yields the empty
list, while the empty string yields a one-element list holding the empty
string. -/
theorem tagParse_space_strip_split :
    (∀ (s t : List Char), t ∈ parseTags (some s) → ' ' ∉ t) ∧
    parseTags none = [] ∧
    parseTags (some ['a', ',', ' ', 'b', ' ', ',', 'c']) = [['a'], ['b'], ['c']] ∧
    parseTags (some []) = [[]] := by
  refine ⟨?_, rfl, by decide, rfl⟩
  intro s t ht hsp
  simp only [parseTags] at ht
  have h1 : ' ' ∈ s.filter (fun c => c != ' ') := mem_splitComma_chars ht hsp
  have h2 := (List.mem_filter.mp h1).2
  simp at h2

/-- Witness for the amended claim C3 at a concrete input. -/
theorem tagParse_space_strip_split_witness :
    ' ' ∉ (['a', 'b'] : List Char) ∧ parseTags none = [] :=
  ⟨tagParse_space_strip_split.1 ['a', ' ', 'b'] ['a', 'b'] (by decide),
   tagParse_space_strip_split.2.1⟩

/-- Claim C4 counterexample: followUser applied to the same id twice, on
a store holding no edge for the pair, succeeds (no ValidationError) and
persists a follow edge whose followerId equals its followingId. -/
theorem followUser_self_follow_cex :
    (followUser envA wEmpty "a" "a").1 =
      .ok { id := "d1", followerId := "a", followingId := "a" } ∧
    (followUser envA wEmpty "a" "a").2.follows =
      [{ id := "d1", followerId := "a", followingId := "a" }] := by
  exact ⟨rfl, rfl⟩

/-- Claim C4 (amended): followUser performs no self-follow validation;
follow of a pair of equal ids runs the same existence-check-then-create
pattern as any other pair, returning an existing (a, a) edge unchanged
when one exists and otherwise persisting a new self-edge. -/
theorem followUser_no_self_validation (env : Env) (w : World) (a : String) :
    (∀ d ds, matchingFollows w a a = d :: ds → followUser env w a a = (.ok d, w)) ∧
    (matchingFollows w a a = [] → env.createDocOk = true →
      followUser env w a a =
        (.ok { id := env.newDocId, followerId := a, followingId := a },
         { w with follows := w.follows ++
             [{ id := env.newDocId, followerId := a, followingId := a }] })) := by
  constructor
  · intro d ds h
    simp [followUser, h]
  · intro h hc
    simp [followUser, h, dbCreateFollow, hc]

/-- Witness for the amended claim C4 at a concrete input. -/
theorem followUser_no_self_validation_witness :
    followUser envA wEmpty "a" "a" =
      (.ok { id := envA.newDocId, followerId := "a", followingId := "a" },
       { wEmpty with follows := wEmpty.follows ++
           [{ id := envA.newDocId, followerId := "a", followingId := "a" }] }) :=
  (followUser_no_self_validation envA wEmpty "a").2 rfl rfl

/-- Claim C5 counterexample: on a store holding two follow edges for the
same ordered pair, unfollowUser returns success but a matching edge is
still present afterwards, so it does not delete every match found. -/
theorem unfollowUser_duplicate_edges_cex :
    (unfollowUser envA wDup "a" "b").1 = .ok "Ok" ∧
    matchingFollows (unfollowUser envA wDup "a" "b").2 "a" "b" =
      [{ id := "e2", followerId := "a", followingId := "b" }] ∧
    matchingFollows (unfollowUser envA wDup "a" "b").2 "a" "b" ≠ [] := by
  refine ⟨rfl, rfl, by decide⟩

/-- Claim C5 (amended): unfollowUser queries all follow edges matching
the ordered pair but deletes only the document of the first match; the
remaining matches survive the call, except any sharing the first match
id; zero matches is still success, not an error, with the store left
unchanged. -/
theorem unfollowUser_first_match_only (env : Env) (w : World) (a b : String)
    (hdel : env.deleteDocOk = true) :
    (matchingFollows w a b = [] → unfollowUser env w a b = (.ok "Ok", w)) ∧
    (∀ d ds, matchingFollows w a b = d :: ds →
      (unfollowUser env w a b).1 = .ok "Ok" ∧
      matchingFollows (unfollowUser env w a b).2 a b =
        ds.filter (fun f => f.id != d.id)) := by
  constructor
  · intro h
    simp [unfollowUser, h]
  · intro d ds h
    have hrun : unfollowUser env w a b =
        (.ok "Ok", { w with follows := w.follows.filter (fun f => f.id != d.id) }) := by
      simp [unfollowUser, h, dbDeleteFollow, hdel]
    refine ⟨by rw [hrun], ?_⟩
    rw [hrun]
    show (w.follows.filter (fun f => f.id != d.id)).filter
        (fun f => f.followerId == a && f.followingId == b) = _
    rw [List.filter_filter]
    have hcomm : (fun f : FollowDoc =>
        (f.followerId == a && f.followingId == b) && (f.id != d.id)) =
        (fun f : FollowDoc =>
        (f.id != d.id) && (f.followerId == a && f.followingId == b)) := by
      funext f
      exact Bool.and_comm _ _
    rw [hcomm, ← List.filter_filter]
    have hm : w.follows.filter (fun f => f.followerId == a && f.followingId == b) = d :: ds := h
    rw [hm, List.filter_cons]
    simp

/-- Witness for the amended claim C5 at a concrete input with duplicate
edges. -/
theorem unfollowUser_first_match_only_witness :
    (unfollowUser envA wDup "a" "b").1 = .ok "Ok" ∧
    matchingFollows (unfollowUser envA wDup "a" "b").2 "a" "b" =
      List.filter (fun f => f.id != "e1")
        [{ id := "e2", followerId := "a", followingId := "b" }] :=
  (unfollowUser_first_match_only envA wDup "a" "b" rfl).2
    { id := "e1", followerId := "a", followingId := "b" }
    [{ id := "e2", followerId := "a", followingId := "b" }] rfl

/-- Claim C6: savePost is idempotent: when a save edge for the pair
already exists the first match is returned unchanged and nothing is
created; from a store with no edge for the pair, one successful call
leaves exactly one matching edge and a second sequential call returns
that edge without touching the store. -/
theorem savePost_idempotent (env1 env2 : Env) (w : World) (u p : String) :
    (∀ d ds, matchingSaves w u p = d :: ds → savePost env1 w u p = (.ok d, w)) ∧
    (matchingSaves w u p = [] → env1.createDocOk = true →
      matchingSaves (savePost env1 w u p).2 u p =
        [{ id := env1.newDocId, userId := u, postId := p }] ∧
      savePost env2 (savePost env1 w u p).2 u p =
        (.ok { id := env1.newDocId, userId := u, postId := p },
         (savePost env1 w u p).2)) := by
  constructor
  · intro d ds h
    simp [savePost, h]
  · intro h hc
    have h0 : w.saves.filter (fun s => s.userId == u && s.postId == p) = [] := h
    have hrun : savePost env1 w u p =
        (.ok { id := env1.newDocId, userId := u, postId := p },
         { w with saves := w.saves ++ [{ id := env1.newDocId, userId := u, postId := p }] }) := by
      simp [savePost, h, dbCreateSave, hc]
    have hm2 : matchingSaves
        { w with saves := w.saves ++ [{ id := env1.newDocId, userId := u, postId := p }] } u p =
        [{ id := env1.newDocId, userId := u, postId := p }] := by
      simp [matchingSaves, List.filter_append, h0]
    have hrun2 : savePost env2
        { w with saves := w.saves ++ [{ id := env1.newDocId, userId := u, postId := p }] } u p =
        (.ok { id := env1.newDocId, userId := u, postId := p },
         { w with saves := w.saves ++ [{ id := env1.newDocId, userId := u, postId := p }] }) := by
      simp [savePost, hm2]
    rw [hrun]
    exact ⟨hm2, hrun2⟩

/-- Witness for claim C6 at a concrete input: two sequential saves from
an empty store leave exactly one edge for the pair. -/
theorem savePost_idempotent_witness :
    matchingSaves (savePost envA wEmpty "u1" "p1").2 "u1" "p1" =
      [{ id := "d1", userId := "u1", postId := "p1" }] ∧
    savePost envA (savePost envA wEmpty "u1" "p1").2 "u1" "p1" =
      (.ok { id := "d1", userId := "u1", postId := "p1" },
       (savePost envA wEmpty "u1" "p1").2) :=
  (savePost_idempotent envA envA wEmpty "u1" "p1").2 rfl rfl

/-- A successful likePost call returns the document produced by the
update: its likes array is exactly the supplied array and it is stored
in the post collection of the resulting world. -/
theorem likePost_ok_spec (env : Env) (w : World) (pid : String)
    (likes : List String) (d : PostDoc) (w1 : World)
    (h : likePost env w pid likes = (.ok d, w1)) :
    d.likes = likes ∧ d ∈ w1.posts := by
  revert h
  unfold likePost dbUpdatePostLikes
  cases hok : env.updateDocOk with
  | false => intro h; simp at h
  | true =>
    cases hf : w.posts.find? (fun p => p.id == pid) with
    | none => intro h; simp at h
    | some old =>
      intro h
      simp only [Prod.mk.injEq, Except.ok.injEq] at h
      obtain ⟨hd, hw⟩ := h
      constructor
      · rfl
      · have hmem := List.mem_of_find?_eq_some hf
        have hid := List.find?_some hf
        refine List.mem_map.mpr ⟨old, hmem, ?_⟩
        simp [hid]

/-- Claim C7: the like toggle is a set-membership toggle (toggling a
present id removes exactly that id and toggling an absent id adds
exactly that id), its two concrete example instances hold, and likePost
persists the entire supplied array on the record, so two calls storing
the same membership store the same likes value. -/
theorem toggleLike_set_semantics :
    (∀ (l : List String) (u x : String), u ∈ l →
      (x ∈ toggleLike l u ↔ x ∈ l ∧ x ≠ u)) ∧
    (∀ (l : List String) (u x : String), u ∉ l →
      (x ∈ toggleLike l u ↔ x ∈ l ∨ x = u)) ∧
    toggleLike ["u1", "u2"] "u1" = ["u2"] ∧
    (∀ x, x ∈ toggleLike ["u2"] "u1" ↔ x ∈ (["u1", "u2"] : List String)) ∧
    (∀ (env : Env) (w : World) (pid : String) (likes : List String)
      (d : PostDoc) (w1 : World), likePost env w pid likes = (.ok d, w1) →
      d.likes = likes ∧ d ∈ w1.posts) ∧
    (∀ (env env2 : Env) (w w2 : World) (pid pid2 : String)
      (likes : List String) (d d2 : PostDoc) (w1 w3 : World),
      likePost env w pid likes = (.ok d, w1) →
      likePost env2 w2 pid2 likes = (.ok d2, w3) → d.likes = d2.likes) := by
  refine ⟨?_, ?_, by decide, ?_, likePost_ok_spec, ?_⟩
  · intro l u x hu
    simp [toggleLike, hu, List.mem_filter, bne_iff_ne]
  · intro l u x hu
    simp [toggleLike, hu, List.mem_append]
  · intro x
    have h : toggleLike ["u2"] "u1" = ["u2", "u1"] := by decide
    rw [h]
    simp only [List.mem_cons, List.not_mem_nil, or_false]
    tauto
  · intro env env2 w w2 pid pid2 likes d d2 w1 w3 h1 h2
    rw [(likePost_ok_spec env w pid likes d w1 h1).1,
        (likePost_ok_spec env2 w2 pid2 likes d2 w3 h2).1]

/-- Witness for claim C7 at concrete inputs: the toggle removes a
present user, and a concrete successful likePost stores the supplied
array on the record. -/
theorem toggleLike_set_semantics_witness :
    ("u1" ∈ toggleLike ["u1", "u2"] "u1" ↔
      "u1" ∈ (["u1", "u2"] : List String) ∧ "u1" ≠ "u1") ∧
    (({ id := "p1", creator := "u1", caption := "hello",
        imageUrl := "https://preview/old1", imageId := "old1",
        location := "Paris", tags := [], likes := ["u9"] } : PostDoc).likes = ["u9"] ∧
      ({ id := "p1", creator := "u1", caption := "hello",
         imageUrl := "https://preview/old1", imageId := "old1",
         location := "Paris", tags := [], likes := ["u9"] } : PostDoc) ∈
        (likePost envA wPost "p1" ["u9"]).2.posts) :=
  ⟨toggleLike_set_semantics.1 ["u1", "u2"] "u1" "u1" (by decide),
   toggleLike_set_semantics.2.2.2.2.1 envA wPost "p1" ["u9"] _
     (likePost envA wPost "p1" ["u9"]).2 rfl⟩

/-- Claim C1 (code bug): when the upload and the preview succeed but
persisting the post document fails on the service's rejection channel
(UnavailableError), createPost returns the error without deleting the
freshly uploaded asset: the catch only logs and rethrows, so the blob
remains in the asset store while no record was created — against the
compensation stated by the comment on the falsy branch of the source and
by the claim.  Evaluated at the concrete failing input. -/
theorem createPost_thrown_persist_leak :
    (createPost envE wEmpty post0).1 = .error "UnavailableError" ∧
    (createPost envE wEmpty post0).2.assets = ["f1"] ∧
    "f1" ∈ (createPost envE wEmpty post0).2.assets ∧
    (createPost envE wEmpty post0).2.posts = [] :=
  ⟨rfl, rfl, by decide, rfl⟩

/-- Claim C2: when the upload succeeds but the preview computation yields
nothing, createPost deletes the just-uploaded asset and returns an error,
so the asset is absent from the asset store after the call and both
stores are exactly as before the call. -/
theorem createPost_preview_fail_rollback (env : Env) (w : World)
    (post : INewPost) (fid : String)
    (hup : env.newFileId = some fid)
    (hprev : env.previewUrl fid = none)
    (hdelok : env.deleteFileOk fid = true)
    (hfresh : fid ∉ w.assets) :
    (∃ e, (createPost env w post).1 = .error e) ∧
    (createPost env w post).2 = w ∧
    fid ∉ (createPost env w post).2.assets := by
  have hrun : createPost env w post = (.error "Failed to get file preview URL.", w) := by
    simp [createPost, uploadFile, hup, getFilePreview, hprev,
      deleteFile, hdelok, List.erase_cons_head]
  rw [hrun]
  exact ⟨⟨_, rfl⟩, rfl, hfresh⟩

/-- Witness for claim C2 at a concrete input. -/
theorem createPost_preview_fail_rollback_witness :
    (∃ e, (createPost envC wEmpty post0).1 = .error e) ∧
    (createPost envC wEmpty post0).2 = wEmpty ∧
    "f1" ∉ (createPost envC wEmpty post0).2.assets :=
  createPost_preview_fail_rollback envC wEmpty post0 "f1" rfl rfl rfl
    (by decide)

/-- The document update touches only the post collection: the asset
store is unchanged on every outcome channel. -/
theorem dbUpdatePostFields_assets (env : Env) (w : World) (pid : String)
    (caption imageUrl imageId location : String) (tags : List (List Char)) :
    (dbUpdatePostFields env w pid caption imageUrl imageId location tags).2.assets =
      w.assets := by
  unfold dbUpdatePostFields
  cases env.updateDocOk with
  | false => rfl
  | true =>
    cases w.posts.find? (fun p => p.id == pid) with
    | none => rfl
    | some old => rfl

/-- Without a file payload, the shared tail of updatePost makes no
storage call at all: the asset store is unchanged on every outcome. -/
theorem updatePostCore_noFile_assets (env : Env) (w : World)
    (post : IUpdatePost) (imageUrl imageId : String) :
    (updatePostCore env w post imageUrl imageId false).2.assets = w.assets := by
  unfold updatePostCore
  cases hdb : dbUpdatePostFields env w post.postId
      (post.caption.getD "No caption") imageUrl imageId
      (post.location.getD "Unknown location") (parseTags post.tags) with
  | mk r w2 =>
    have hw2 : w2.assets = w.assets := by
      have := dbUpdatePostFields_assets env w post.postId
        (post.caption.getD "No caption") imageUrl imageId
        (post.location.getD "Unknown location") (parseTags post.tags)
      rw [hdb] at this
      exact this
    cases r with
    | none => simp [hw2]
    | some d => simp [hw2]

/-- Claim C8: an updatePost call without a new binary payload performs no
asset-store operation (the blob store, and with it the existing asset,
is untouched); and when a new payload is supplied and the document update
succeeds, a failure of the best-effort deletion of the old asset never
surfaces: the updated record is still returned as success. -/
theorem updatePost_frame_and_cleanup (env1 env2 : Env) (w1 w2 : World)
    (p q : IUpdatePost) (fid url oldId : String)
    (hp : p.file = false)
    (hq : q.file = true)
    (hup : env2.newFileId = some fid)
    (hprev : env2.previewUrl fid = some url)
    (hok : env2.updateDocOk = true)
    (hex : (w2.posts.find? (fun x => x.id == q.postId)).isSome = true)
    (hold : q.imageId = some oldId)
    (hne1 : oldId ≠ "")
    (hne2 : oldId ≠ fid)
    (hdel : env2.deleteFileOk oldId = false) :
    (updatePost env1 w1 p).2.assets = w1.assets ∧
    (∃ d, (updatePost env2 w2 q).1 = .ok d) := by
  constructor
  · have hmain : updatePost env1 w1 p =
        updatePostCore env1 w1 p (p.imageUrl.getD "") (p.imageId.getD "") false := by
      simp [updatePost, hp]
    rw [hmain]
    exact updatePostCore_noFile_assets env1 w1 p _ _
  · obtain ⟨old, hfind⟩ := Option.isSome_iff_exists.mp hex
    have hmain : updatePost env2 w2 q =
        updatePostCore env2 { w2 with assets := fid :: w2.assets } q url fid true := by
      simp [updatePost, hq, uploadFile, hup, getFilePreview, hprev]
    rw [hmain]
    unfold updatePostCore
    have hfind2 : ({ w2 with assets := fid :: w2.assets } : World).posts.find?
        (fun x => x.id == q.postId) = some old := hfind
    simp only [dbUpdatePostFields, hok, if_true, hfind2, hold, Option.getD_some]
    have hc1 : (oldId != "") = true := bne_iff_ne.mpr hne1
    have hc2 : (oldId != fid) = true := bne_iff_ne.mpr hne2
    simp [hc1, hc2]

/-- Witness for claim C8 at concrete inputs: a document-only update on a
store with one post, and an update with a new payload whose old-asset
deletion fails. -/
theorem updatePost_frame_and_cleanup_witness :
    (updatePost envA wPost pNoFile).2.assets = wPost.assets ∧
    (∃ d, (updatePost envD wPost qNewFile).1 = .ok d) :=
  updatePost_frame_and_cleanup envA envD wPost wPost pNoFile qNewFile
    "f1" "https://preview/f1" "old1" rfl rfl rfl rfl rfl rfl rfl
    (by decide) (by decide) rfl

/-- Claim C9: deleting an asset id that is not present in the asset
store succeeds: deleteFile returns the ok status and leaves the store
unchanged about an absent id (idempotent deletion), provided the storage
service itself raises no transient failure. -/
theorem deleteFile_absent_is_ok (env : Env) (w : World) (fid : String)
    (hok : env.deleteFileOk fid = true) (habs : fid ∉ w.assets) :
    deleteFile env w fid = (.ok "ok", w) := by
  simp only [deleteFile, hok, if_true, List.erase_of_not_mem habs]

/-- Witness for claim C9 at a concrete input: deleting an id absent from
the empty store returns ok. -/
theorem deleteFile_absent_is_ok_witness :
    deleteFile envA wEmpty "missing" = (.ok "ok", wEmpty) :=
  deleteFile_absent_is_ok envA wEmpty "missing" rfl (by decide)

/-- Claim C10: an updatePost call that omits the caption and the
location does not preserve the existing values of the record: the
update succeeds with a document whose caption is the literal default
"No caption" and whose location is "Unknown location", and that document
is what is stored. -/
theorem updatePost_overwrites_defaults (env : Env) (w : World)
    (p : IUpdatePost)
    (hf : p.file = false)
    (hc : p.caption = none)
    (hl : p.location = none)
    (hok : env.updateDocOk = true)
    (hex : (w.posts.find? (fun x => x.id == p.postId)).isSome = true) :
    ∃ d, (updatePost env w p).1 = .ok d ∧ d.caption = "No caption" ∧
      d.location = "Unknown location" ∧ d ∈ (updatePost env w p).2.posts := by
  obtain ⟨old, hfind⟩ := Option.isSome_iff_exists.mp hex
  have hmem := List.mem_of_find?_eq_some hfind
  have hid := List.find?_some hfind
  have hmain : updatePost env w p =
      updatePostCore env w p (p.imageUrl.getD "") (p.imageId.getD "") false := by
    simp [updatePost, hf]
  rw [hmain]
  unfold updatePostCore
  simp only [dbUpdatePostFields, hok, if_true, hfind, hc, hl, Option.getD_none,
    Bool.false_and, Bool.if_false_left]
  refine ⟨_, rfl, rfl, rfl, ?_⟩
  refine List.mem_map.mpr ⟨old, hmem, ?_⟩
  simp [hid]

/-- Witness for claim C10 at a concrete input: the stored record had the
caption hello and the location Paris, and the update overwrites both
with the literal defaults. -/
theorem updatePost_overwrites_defaults_witness :
    ∃ d, (updatePost envA wPost pDefaults).1 = .ok d ∧
      d.caption = "No caption" ∧ d.location = "Unknown location" ∧
      d ∈ (updatePost envA wPost pDefaults).2.posts :=
  updatePost_overwrites_defaults envA wPost pDefaults rfl rfl rfl rfl rfl
